import Mathlib

/-!
Verification of the github-activity CLI (src/github-activity/main.go).

The program is a linear pipeline: one HTTP GET, a JSON decode of the body
into a list of events, and a per-event formatter.  We embed the pure parts
shallowly:

* `Json` models JSON values; a Go `json.RawMessage` is modelled as
  `Option Json` (`none` stands for bytes that are not well-formed JSON,
  including the nil message left by an absent `payload` field).
* `upd…` functions model `encoding/json.Unmarshal` into an existing Go
  value, with the relevant documented Go semantics: a JSON `null` leaves
  the value untouched, missing object keys leave their fields untouched,
  unknown keys are ignored, object keys are matched to struct fields with
  bytes.EqualFold semantics, and every matching occurrence of a key is
  decoded in document order, later values overwriting earlier ones.
  Unmarshal skips a type-mismatched value, completes the rest, and still
  returns the earliest UnmarshalTypeError; the program only ever tests
  err against nil and discards the partially-filled value on error, so
  the model returns `none` exactly when some occurrence mismatches and
  does not track which error or the partial value.
* `unmarshal…` functions apply that to the fresh zero value, as each
  `json.Unmarshal` call site of main.go does.
* `formatEvent`, `verbCap`, `extractAction` translate the formatter.
* `fetchEvents` translates the status-code classification and body decode
  of the fetcher; the network interaction is abstracted as an
  `HTTPResponse` input carrying the status and the body (both its raw
  text and, for the 200 path, its parse as JSON).
* `mainOnEvents` translates the part of `main` that runs after a
  successful fetch, as the list of stdout lines plus the exit code.
-/

namespace GithubActivity

/-- A JSON value.  Numbers are modelled as integers: no struct in main.go
has a numeric field, so numbers only ever participate as type mismatches
or opaque payload contents, where their exact value is irrelevant. -/
inductive Json where
  | null : Json
  | bool (b : Bool) : Json
  | num (n : Int) : Json
  | str (s : String) : Json
  | arr (elems : List Json) : Json
  | obj (fields : List (String × Json)) : Json

/-- Whether a JSON value is an array (used to state claims about
"JSON array" bodies). -/
def Json.isArr : Json → Bool
  | .arr _ => true
  | _ => false

/-- `type Repo struct { Name string }` (JSON key "name"). -/
structure Repo where
  name : String

/-- One element of the `Commits` slice: `struct { SHA string }`. -/
structure Commit where
  sha : String

/-- `type PushPayload struct { Commits []struct{ SHA string } }`. -/
structure PushPayload where
  commits : List Commit

/-- `type ActionPayload struct { Action string }`. -/
structure ActionPayload where
  action : String

/-- `type CreatePayload struct { RefType string; Ref string }`. -/
structure CreatePayload where
  refType : String
  ref : String

/-- The nested `PullRequest struct { Merged bool }`. -/
structure PullRequestInfo where
  merged : Bool

/-- `type PullRequestPayload struct { Action string; PullRequest struct{ Merged bool } }`. -/
structure PullRequestPayload where
  action : String
  pullRequest : PullRequestInfo

/-- `type Event struct { Type string; Repo Repo; Payload json.RawMessage }`.
The raw payload is `none` when the bytes are not well-formed JSON
(in particular when the `payload` key was absent, leaving a nil message,
which `json.Unmarshal` rejects). -/
structure Event where
  type : String
  repo : Repo
  payload : Option Json

/-- Go encoding/json matches object keys to struct fields with
bytes.EqualFold semantics (Unicode simple folding); its fold maps every
rune to the smallest rune of its simple-fold orbit.  ASCII letters fold
to the uppercase letter, and exactly two non-ASCII runes have orbits
containing an ASCII letter: U+017F LATIN SMALL LETTER LONG S (folds with
s) and U+212A KELVIN SIGN (folds with k).  Every other rune is left
unchanged here, which is exact for every comparison this file performs:
keys are only ever compared against the ASCII struct field names of
main.go, and a rune whose fold orbit contains no ASCII letter can never
fold to one. -/
def foldRune (c : Char) : Char :=
  if 97 ≤ c.toNat ∧ c.toNat ≤ 122 then Char.ofNat (c.toNat - 32)
  else if c.toNat = 383 then 'S'
  else if c.toNat = 8490 then 'K'
  else c

/-- Key folding for Go encoding/json field matching, rune by rune. -/
def keyFold (s : String) : String :=
  String.mk (s.data.map foldRune)

/-- All values of the object whose key fold-matches the given struct
field name, in document order: Go decodes every one of them. -/
def jsonMatches (fields : List (String × Json)) (key : String) : List Json :=
  (fields.filter fun kv => keyFold kv.1 == keyFold key).map Prod.snd

/-- Thread `json.Unmarshal` through every matching occurrence of a
field, in document order, each occurrence updating the value produced by
the previous ones.  Go skips a mismatched occurrence, keeps decoding,
and still reports the earliest error; since the program only tests
err against nil, the model returns `none` when any occurrence errors. -/
def updField {α : Type} (upd : α → Json → Option α) (init : α) (vs : List Json) : Option α :=
  vs.foldlM upd init

/-- Unmarshal a JSON value into an existing Go `string`: a JSON string
replaces it, `null` has no effect, anything else is an error. -/
def updString (s : String) : Json → Option String
  | .str t => some t
  | .null => some s
  | _ => none

/-- Unmarshal a JSON value into an existing Go `bool`: a JSON bool
replaces it, `null` has no effect, anything else is an error. -/
def updBool (b : Bool) : Json → Option Bool
  | .bool c => some c
  | .null => some b
  | _ => none

/-- Unmarshal a JSON value into a `json.RawMessage`: recording the raw
bytes always succeeds and replaces any earlier occurrence. -/
def updRawMessage (_ : Option Json) (v : Json) : Option (Option Json) :=
  some (some v)

/-- Unmarshal a JSON value into one `struct { SHA string }` element. -/
def updCommit (c : Commit) : Json → Option Commit
  | .obj fields => (updField updString c.sha (jsonMatches fields "sha")).map Commit.mk
  | .null => some c
  | _ => none

/-- Unmarshal a JSON value into the `Commits` slice: an array resets the
length to zero and decodes each element, `null` has no effect, anything
else is an error.  Go may reuse backing-array slots across duplicate
occurrences, leaving stale sha bytes in re-decoded elements; the program
only ever reads the length of this slice, never the shas, so the model
decodes each element from the zero value. -/
def updCommits (cs : List Commit) : Json → Option (List Commit)
  | .arr xs => xs.mapM (updCommit ⟨""⟩)
  | .null => some cs
  | _ => none

/-- Unmarshal a JSON value into an existing `PushPayload`. -/
def updPushPayload (p : PushPayload) : Json → Option PushPayload
  | .obj fields => (updField updCommits p.commits (jsonMatches fields "commits")).map PushPayload.mk
  | .null => some p
  | _ => none

/-- Unmarshal a JSON value into an existing `ActionPayload`. -/
def updActionPayload (p : ActionPayload) : Json → Option ActionPayload
  | .obj fields => (updField updString p.action (jsonMatches fields "action")).map ActionPayload.mk
  | .null => some p
  | _ => none

/-- Unmarshal a JSON value into the existing nested `pull_request`
struct: a second occurrence merges into the struct left by the first,
keeping fields the later object does not mention. -/
def updPullRequestInfo (p : PullRequestInfo) : Json → Option PullRequestInfo
  | .obj fields => (updField updBool p.merged (jsonMatches fields "merged")).map PullRequestInfo.mk
  | .null => some p
  | _ => none

/-- Unmarshal a JSON value into an existing `PullRequestPayload`. -/
def updPullRequestPayload (p : PullRequestPayload) : Json → Option PullRequestPayload
  | .obj fields => do
    let action ← updField updString p.action (jsonMatches fields "action")
    let pr ← updField updPullRequestInfo p.pullRequest (jsonMatches fields "pull_request")
    some ⟨action, pr⟩
  | .null => some p
  | _ => none

/-- Unmarshal a JSON value into an existing `CreatePayload`. -/
def updCreatePayload (p : CreatePayload) : Json → Option CreatePayload
  | .obj fields => do
    let refType ← updField updString p.refType (jsonMatches fields "ref_type")
    let ref ← updField updString p.ref (jsonMatches fields "ref")
    some ⟨refType, ref⟩
  | .null => some p
  | _ => none

/-- Unmarshal a JSON value into an existing `Repo`. -/
def updRepo (r : Repo) : Json → Option Repo
  | .obj fields => (updField updString r.name (jsonMatches fields "name")).map Repo.mk
  | .null => some r
  | _ => none

/-- Unmarshal a JSON value into an existing `Event`. -/
def updEvent (e : Event) : Json → Option Event
  | .obj fields => do
    let t ← updField updString e.type (jsonMatches fields "type")
    let r ← updField updRepo e.repo (jsonMatches fields "repo")
    let p ← updField updRawMessage e.payload (jsonMatches fields "payload")
    some ⟨t, r, p⟩
  | .null => some e
  | _ => none

/-- `json.Unmarshal(e.Payload, &p)` for a fresh `p PushPayload`: fails
when the raw message is not well-formed JSON or some occurrence of a
matched field mismatches its type. -/
def unmarshalPush (payload : Option Json) : Option PushPayload :=
  payload.bind (updPushPayload ⟨[]⟩)

/-- `json.Unmarshal` of a raw payload into a fresh `ActionPayload`. -/
def unmarshalAction (payload : Option Json) : Option ActionPayload :=
  payload.bind (updActionPayload ⟨""⟩)

/-- `json.Unmarshal` of a raw payload into a fresh `PullRequestPayload`. -/
def unmarshalPullRequest (payload : Option Json) : Option PullRequestPayload :=
  payload.bind (updPullRequestPayload ⟨"", ⟨false⟩⟩)

/-- `json.Unmarshal` of a raw payload into a fresh `CreatePayload`. -/
def unmarshalCreate (payload : Option Json) : Option CreatePayload :=
  payload.bind (updCreatePayload ⟨"", ""⟩)

/-- `json.Unmarshal(body, &events)` for `events : []Event`: a JSON array
decodes elementwise into fresh zero-valued events, `null` leaves the nil
slice, anything else is an error. -/
def unmarshalEvents : Json → Option (List Event)
  | .arr xs => xs.mapM (updEvent ⟨"", ⟨""⟩, none⟩)
  | .null => some []
  | _ => none

/-- `extractAction` from main.go: decode the payload as `ActionPayload`
and return its action, or `""` when decoding fails. -/
def extractAction (payload : Option Json) : String :=
  match unmarshalAction payload with
  | none => ""
  | some p => p.action

/-- `verbCap` from main.go: the Go code uppercases the first byte when it
lies in the byte range of the letters a to z.  The first byte of a UTF-8
encoded string lies in that range exactly when the first character is
that ASCII letter, so at the character level this uppercases the first
character when it is an ASCII lowercase letter and changes nothing
otherwise. -/
def verbCap (action : String) : String :=
  if action = "" then ""
  else
    match action.data with
    | [] => action
    | c :: cs =>
      if 97 ≤ c.toNat ∧ c.toNat ≤ 122 then
        String.mk (Char.ofNat (c.toNat - 32) :: cs)
      else action

/-- Lowercase hexadecimal digit, as strconv uses in escapes. -/
def hexDigit (n : Nat) : Char :=
  if n < 10 then Char.ofNat (48 + n) else Char.ofNat (87 + n)

/-- One character of Go `%q` quoting (strconv.Quote): quote and backslash
are backslash-escaped, printable characters pass through, the named
control escapes are used for bell through carriage return, and remaining
control bytes become a backslash-x escape with two hex digits.  This is
exact for every ASCII character (code points below 128, including DEL).
Non-ASCII characters pass through; Go additionally escapes non-printable
non-ASCII runes as backslash-u escapes, which this model does not track —
the quoting theorem below therefore confines itself to ASCII refs. -/
def goQuoteChar (c : Char) : List Char :=
  if c = '"' then ['\\', '"']
  else if c = '\\' then ['\\', '\\']
  else if 32 ≤ c.toNat ∧ c.toNat ≠ 127 then [c]
  else if c.toNat = 7 then ['\\', 'a']
  else if c.toNat = 8 then ['\\', 'b']
  else if c.toNat = 12 then ['\\', 'f']
  else if c.toNat = 10 then ['\\', 'n']
  else if c.toNat = 13 then ['\\', 'r']
  else if c.toNat = 9 then ['\\', 't']
  else if c.toNat = 11 then ['\\', 'v']
  else ['\\', 'x', hexDigit (c.toNat / 16), hexDigit (c.toNat % 16)]

/-- Go `fmt` verb `%q` applied to a string: the string surrounded by
double quotes, with the escaping of `goQuoteChar`. -/
def goQuote (s : String) : String :=
  String.mk ('"' :: (s.data.flatMap goQuoteChar) ++ ['"'])

/-- `formatEvent` from main.go: dispatch on the event type tag, re-decode
the payload per type, fall back to a generic line when decoding fails. -/
def formatEvent (e : Event) : String :=
  let repo := e.repo.name
  if e.type = "PushEvent" then
    match unmarshalPush e.payload with
    | none => "Pushed commits to " ++ repo
    | some p =>
      let n := p.commits.length
      if n = 1 then "Pushed 1 commit to " ++ repo
      else "Pushed " ++ toString n ++ " commits to " ++ repo
  else if e.type = "IssuesEvent" then
    let action := extractAction e.payload
    let action := if action = "" then "updated" else action
    verbCap action ++ " an issue in " ++ repo
  else if e.type = "IssueCommentEvent" then
    "Commented on an issue in " ++ repo
  else if e.type = "PullRequestEvent" then
    match unmarshalPullRequest e.payload with
    | some p =>
      if p.action = "closed" ∧ p.pullRequest.merged then
        "Merged a pull request in " ++ repo
      else if p.action ≠ "" then
        verbCap p.action ++ " a pull request in " ++ repo
      else "Updated a pull request in " ++ repo
    | none => "Updated a pull request in " ++ repo
  else if e.type = "WatchEvent" then
    "Starred " ++ repo
  else if e.type = "ForkEvent" then
    "Forked " ++ repo
  else if e.type = "CreateEvent" then
    match unmarshalCreate e.payload with
    | some p =>
      if p.refType = "repository" then "Created repository " ++ repo
      else if p.ref ≠ "" then
        "Created " ++ p.refType ++ " " ++ goQuote p.ref ++ " in " ++ repo
      else "Created " ++ p.refType ++ " in " ++ repo
    | none => "Created something in " ++ repo
  else if repo ≠ "" then
    e.type ++ " in " ++ repo
  else
    e.type

/-- The HTTP response seen by `fetchEvents`, with the network abstracted
away: the numeric status code, the status line string (`res.Status`,
such as "403 Forbidden"), the body bytes as text, and the result of
parsing the body bytes as JSON (`none` when they are malformed). -/
structure HTTPResponse where
  statusCode : Nat
  status : String
  body : String
  bodyJson : Option Json

/-- The classified failures of `fetchEvents`.  The Go code renders these
as error strings: "user %s not found", "forbidden 403, response %s",
"github api error %s resp: %s", and "invalid json %w". -/
inductive FetchError where
  | notFound (username : String)
  | forbidden (body : String)
  | apiError (status : String) (body : String)
  | decodeError

/-- The status classification and body decode of `fetchEvents` from
main.go, as a function of the received response. -/
def fetchEvents (username : String) (res : HTTPResponse) : Except FetchError (List Event) :=
  if res.statusCode = 200 then
    match res.bodyJson with
    | none => .error .decodeError
    | some j =>
      match unmarshalEvents j with
      | none => .error .decodeError
      | some events => .ok events
  else if res.statusCode = 404 then .error (.notFound username)
  else if res.statusCode = 403 then .error (.forbidden res.body)
  else .error (.apiError res.status res.body)

/-- Observable outcome of a run: the lines printed to stdout and the
process exit code. -/
structure RunOutcome where
  stdout : List String
  exitCode : Nat

/-- The tail of `main` after a successful fetch: print "no recent
activity" for an empty list, otherwise print `- ` followed by each
non-empty formatted line, in order (`fmt.Println("-", line)` joins its
arguments with one space); either way the process exits 0. -/
def mainOnEvents (events : List Event) : RunOutcome :=
  if events.length = 0 then ⟨["no recent activity"], 0⟩
  else
    ⟨events.filterMap (fun e =>
      let line := formatEvent e
      if line = "" then none else some ("- " ++ line)), 0⟩

/-! ## Helper lemmas -/

/-- Concatenation of strings is empty exactly when both parts are. -/
theorem append_eq_empty_iff (a b : String) : a ++ b = "" ↔ a = "" ∧ b = "" := by
  simp [String.ext_iff]

/-- The printing loop of `main`, rewritten as map, filter, map. -/
theorem filterMap_format_eq (es : List Event) :
    (es.filterMap fun e =>
      if formatEvent e = "" then none else some ("- " ++ formatEvent e)) =
    ((es.map formatEvent).filter (fun line => line ≠ "")).map (fun line => "- " ++ line) := by
  induction es with
  | nil => rfl
  | cons e es ih =>
    by_cases hl : formatEvent e = "" <;> simp [List.filterMap_cons, hl, ih]

/-! ## Claims -/

/-- C1: formatEvent is total — in this embedding it is a plain function
into `String`, defined for every type tag, repo name and payload
(including `none`, the image of malformed or absent payload bytes), and
it never produces an error value.  Moreover every payload re-decoding
failure — `unmarshal… = none` covers every input on which the Go
Unmarshal call returns a non-nil error, including a type mismatch at any
fold-matching occurrence of a duplicated key — is mapped to the listed
fallback string of its event type, as this theorem states for each of
the four branches that re-decode their payload. -/
theorem formatEvent_fallbacks (e : Event) :
    (e.type = "PushEvent" → unmarshalPush e.payload = none →
      formatEvent e = "Pushed commits to " ++ e.repo.name) ∧
    (e.type = "IssuesEvent" → unmarshalAction e.payload = none →
      formatEvent e = "Updated an issue in " ++ e.repo.name) ∧
    (e.type = "PullRequestEvent" → unmarshalPullRequest e.payload = none →
      formatEvent e = "Updated a pull request in " ++ e.repo.name) ∧
    (e.type = "CreateEvent" → unmarshalCreate e.payload = none →
      formatEvent e = "Created something in " ++ e.repo.name) := by
  obtain ⟨t, ⟨r⟩, p⟩ := e
  have hcap : ("Updated" : String) ++ " an issue in " = "Updated an issue in " := rfl
  refine ⟨?_, ?_, ?_, ?_⟩ <;> intro ht hd <;> subst ht <;>
    simp [formatEvent, hd, extractAction, ← congrArg (· ++ r) hcap,
      show verbCap "updated" = "Updated" from rfl]

/-- C1 witness: the four fallbacks, at the undecodable payload `none`
and at a payload whose duplicated action key has a mismatched earlier
occurrence, which Go reports as an error even though the later
occurrence decodes. -/
theorem formatEvent_fallbacks_witness :
    formatEvent ⟨"PushEvent", ⟨"r"⟩, none⟩ = "Pushed commits to " ++ "r" ∧
    formatEvent ⟨"IssuesEvent", ⟨"r"⟩,
      some (Json.obj [("action", Json.num 5), ("action", Json.str "x")])⟩ =
      "Updated an issue in " ++ "r" ∧
    formatEvent ⟨"PullRequestEvent", ⟨"r"⟩, none⟩ = "Updated a pull request in " ++ "r" ∧
    formatEvent ⟨"CreateEvent", ⟨"r"⟩, none⟩ = "Created something in " ++ "r" :=
  ⟨(formatEvent_fallbacks ⟨"PushEvent", ⟨"r"⟩, none⟩).1 rfl rfl,
   (formatEvent_fallbacks ⟨"IssuesEvent", ⟨"r"⟩,
      some (Json.obj [("action", Json.num 5), ("action", Json.str "x")])⟩).2.1 rfl rfl,
   (formatEvent_fallbacks ⟨"PullRequestEvent", ⟨"r"⟩, none⟩).2.2.1 rfl rfl,
   (formatEvent_fallbacks ⟨"CreateEvent", ⟨"r"⟩, none⟩).2.2.2 rfl rfl⟩

/-- C2 counterexample: a PushEvent payload that is a well-formed JSON
object with no commits member decodes successfully with a nil commits
slice, so the line is "Pushed 0 commits to r" and not the fallback
"Pushed commits to r" the claim requires. -/
theorem pushEvent_missing_commits_counterexample :
    formatEvent ⟨"PushEvent", ⟨"r"⟩, some (Json.obj [])⟩ = "Pushed 0 commits to r" ∧
    "Pushed 0 commits to r" ≠ "Pushed commits to r" := ⟨rfl, by decide⟩

/-- C2 amended: with commit count n, a decodable PushEvent payload gives
"Pushed 1 commit to R" when n = 1 and "Pushed n commits to R" otherwise;
the fallback "Pushed commits to R" appears exactly when the payload
fails to decode (absent, malformed, not an object or null, or some
fold-matching occurrence of a commits key mismatching); and an object
payload with no occurrence fold-matching the commits field decodes with
zero commits, giving "Pushed 0 commits to R" rather than the fallback. -/
theorem pushEvent_format (repo : String) (payload : Option Json) :
    (∀ p, unmarshalPush payload = some p →
      (p.commits.length = 1 →
        formatEvent ⟨"PushEvent", ⟨repo⟩, payload⟩ = "Pushed 1 commit to " ++ repo) ∧
      (p.commits.length ≠ 1 →
        formatEvent ⟨"PushEvent", ⟨repo⟩, payload⟩ =
          "Pushed " ++ toString p.commits.length ++ " commits to " ++ repo)) ∧
    (unmarshalPush payload = none →
      formatEvent ⟨"PushEvent", ⟨repo⟩, payload⟩ = "Pushed commits to " ++ repo) ∧
    (∀ fields, payload = some (Json.obj fields) → jsonMatches fields "commits" = [] →
      formatEvent ⟨"PushEvent", ⟨repo⟩, payload⟩ = "Pushed 0 commits to " ++ repo) := by
  refine ⟨?_, ?_, ?_⟩
  · intro p hp
    constructor
    · intro h1; simp [formatEvent, hp, h1]
    · intro h1; simp [formatEvent, hp, h1]
  · intro h; simp [formatEvent, h]
  · intro fields hp hl
    subst hp
    have hu : unmarshalPush (some (Json.obj fields)) = some ⟨[]⟩ := by
      simp [unmarshalPush, updPushPayload, updField, hl]
    simp [formatEvent, hu,
      ← congrArg (· ++ repo)
        (show ("Pushed " : String) ++ toString (0 : Nat) ++ " commits to " = "Pushed 0 commits to " from rfl)]

/-- C2 witness: a one-commit payload, a payload whose duplicated commits
key has a mismatched earlier occurrence (a Go decode error, hence the
fallback), and an object payload without a commits member. -/
theorem pushEvent_format_witness :
    formatEvent ⟨"PushEvent", ⟨"r"⟩, some (Json.obj [("commits", Json.arr [Json.obj []])])⟩ =
      "Pushed 1 commit to " ++ "r" ∧
    formatEvent ⟨"PushEvent", ⟨"r"⟩,
      some (Json.obj [("commits", Json.num 5), ("commits", Json.arr [])])⟩ =
      "Pushed commits to " ++ "r" ∧
    formatEvent ⟨"PushEvent", ⟨"r"⟩, some (Json.obj [])⟩ = "Pushed 0 commits to " ++ "r" :=
  ⟨((pushEvent_format "r" (some (Json.obj [("commits", Json.arr [Json.obj []])]))).1 ⟨[⟨""⟩]⟩ rfl).1 rfl,
   (pushEvent_format "r" (some (Json.obj [("commits", Json.num 5), ("commits", Json.arr [])]))).2.1 rfl,
   (pushEvent_format "r" (some (Json.obj []))).2.2 [] rfl rfl⟩

/-- C3 counterexample: a 200 response whose body is the well-formed JSON
value null is not a JSON array, yet `json.Unmarshal` accepts it, leaving
the nil slice: the run succeeds with zero events instead of failing with
a decode error as the claim requires. -/
theorem fetchEvents_null_body_counterexample :
    fetchEvents "u" ⟨200, "200 OK", "null", some Json.null⟩ = Except.ok [] ∧
    Json.isArr Json.null = false := ⟨rfl, rfl⟩

/-- C3 amended: status 404 yields the not-found failure naming the
identifier, status 403 the forbidden failure carrying the body, any other
non-200 status the API-error failure carrying status and body; status 200
proceeds to decode, and a body that fails to unmarshal as a JSON array of
events (because it is malformed JSON, or its JSON value is neither an
array nor null, or an element is not event-shaped — including an element
with a type-mismatched occurrence of a duplicated key) yields the decode
failure, while a body that unmarshals (a JSON null body unmarshals as the
empty event list) yields those events. -/
theorem fetchEvents_classification (username : String) (res : HTTPResponse) :
    (res.statusCode = 404 → fetchEvents username res = .error (.notFound username)) ∧
    (res.statusCode = 403 → fetchEvents username res = .error (.forbidden res.body)) ∧
    (res.statusCode ≠ 200 → res.statusCode ≠ 404 → res.statusCode ≠ 403 →
      fetchEvents username res = .error (.apiError res.status res.body)) ∧
    (res.statusCode = 200 → res.bodyJson = none → fetchEvents username res = .error .decodeError) ∧
    (res.statusCode = 200 → ∀ j, res.bodyJson = some j → unmarshalEvents j = none →
      fetchEvents username res = .error .decodeError) ∧
    (res.statusCode = 200 → ∀ j events, res.bodyJson = some j → unmarshalEvents j = some events →
      fetchEvents username res = .ok events) := by
  obtain ⟨code, st, body, bj⟩ := res
  refine ⟨?_, ?_, ?_, ?_, ?_, ?_⟩
  · intro h; subst h; rfl
  · intro h; subst h; rfl
  · intro h1 h2 h3; simp [fetchEvents, h1, h2, h3]
  · intro h1 h2; subst h1; simp at h2; subst h2; rfl
  · intro h1 j h2 h3; subst h1; simp at h2; subst h2; simp [fetchEvents, h3]
  · intro h1 j events h2 h3; subst h1; simp at h2; subst h2; simp [fetchEvents, h3]

/-- C3 witness: one response per classification branch; the second
decode-failure response carries an event element whose duplicated type
key has a mismatched earlier occurrence, which Go reports as an error
even though the later occurrence decodes. -/
theorem fetchEvents_classification_witness :
    fetchEvents "alice" ⟨404, "404 Not Found", "", none⟩ =
      Except.error (FetchError.notFound "alice") ∧
    fetchEvents "alice" ⟨403, "403 Forbidden", "rate limited", none⟩ =
      Except.error (FetchError.forbidden "rate limited") ∧
    fetchEvents "alice" ⟨500, "500 Internal Server Error", "oops", none⟩ =
      Except.error (FetchError.apiError "500 Internal Server Error" "oops") ∧
    fetchEvents "alice" ⟨200, "200 OK", "not json", none⟩ =
      Except.error FetchError.decodeError ∧
    fetchEvents "alice" ⟨200, "200 OK", "[...]",
      some (Json.arr [Json.obj [("type", Json.num 5), ("type", Json.str "x")]])⟩ =
      Except.error FetchError.decodeError ∧
    fetchEvents "alice" ⟨200, "200 OK", "[]", some (Json.arr [])⟩ = Except.ok [] :=
  ⟨(fetchEvents_classification "alice" _).1 rfl,
   (fetchEvents_classification "alice" _).2.1 rfl,
   (fetchEvents_classification "alice" _).2.2.1 (by decide) (by decide) (by decide),
   (fetchEvents_classification "alice" _).2.2.2.1 rfl rfl,
   (fetchEvents_classification "alice" _).2.2.2.2.1 rfl _ rfl rfl,
   (fetchEvents_classification "alice" _).2.2.2.2.2 rfl _ [] rfl rfl⟩

/-- C4 counterexample: the event whose type tag and repo name are both
empty falls into the catch-all branch, which returns the type tag itself,
the empty, suppressing string — contradicting the claim that no event in
the dispatch table or catch-all produces the empty result. -/
theorem formatEvent_empty_counterexample :
    formatEvent ⟨"", ⟨""⟩, none⟩ = "" := rfl

/-- C4 amended: formatEvent produces the empty (suppressing) string
exactly for the degenerate event whose type tag and repo name are both
empty; every event with a non-empty type tag or a non-empty repo name —
in particular every event of a listed type — yields a non-empty line. -/
theorem formatEvent_eq_empty_iff (e : Event) :
    formatEvent e = "" ↔ (e.type = "" ∧ e.repo.name = "") := by
  obtain ⟨t, ⟨r⟩, p⟩ := e
  simp only [formatEvent]
  repeat' split
  all_goals simp_all [append_eq_empty_iff]

/-- C5: after a successful fetch of N events, an empty list prints
exactly "no recent activity" and exits 0; a non-empty list attempts a
format of every event, prints dash-space followed by each non-empty line,
in original order, and exits 0. -/
theorem mainOnEvents_spec (events : List Event) :
    (events = [] → mainOnEvents events = ⟨["no recent activity"], 0⟩) ∧
    (events ≠ [] → mainOnEvents events =
      ⟨((events.map formatEvent).filter (fun line => line ≠ "")).map (fun line => "- " ++ line), 0⟩) := by
  constructor
  · intro h; subst h; rfl
  · intro h
    have hlen : ¬ events.length = 0 := by simpa [List.length_eq_zero] using h
    simp only [mainOnEvents, if_neg hlen, filterMap_format_eq]

/-- C5 witness: the empty event list and a one-event list. -/
theorem mainOnEvents_spec_witness :
    mainOnEvents [] = ⟨["no recent activity"], 0⟩ ∧
    mainOnEvents [⟨"WatchEvent", ⟨"r"⟩, none⟩] = ⟨["- Starred r"], 0⟩ := by
  refine ⟨(mainOnEvents_spec []).1 rfl, ?_⟩
  have h := (mainOnEvents_spec [⟨"WatchEvent", ⟨"r"⟩, none⟩]).2 (by simp)
  exact h.trans rfl

/-- C6: a PullRequestEvent whose payload decodes gives "Merged a pull
request in R" when the action is closed and merged is true, otherwise the
capitalized action when the action is non-empty, and "Updated a pull
request in R" when the action is empty or the payload fails to decode —
where decode failure, `unmarshalPullRequest = none`, covers every input
on which the Go Unmarshal call returns a non-nil error, including a type
mismatch at any fold-matching occurrence of a duplicated key. -/
theorem pullRequestEvent_format (repo : String) (payload : Option Json) :
    (∀ p, unmarshalPullRequest payload = some p →
      (p.action = "closed" ∧ p.pullRequest.merged = true →
        formatEvent ⟨"PullRequestEvent", ⟨repo⟩, payload⟩ = "Merged a pull request in " ++ repo) ∧
      (¬(p.action = "closed" ∧ p.pullRequest.merged = true) → p.action ≠ "" →
        formatEvent ⟨"PullRequestEvent", ⟨repo⟩, payload⟩ =
          verbCap p.action ++ " a pull request in " ++ repo) ∧
      (p.action = "" →
        formatEvent ⟨"PullRequestEvent", ⟨repo⟩, payload⟩ = "Updated a pull request in " ++ repo)) ∧
    (unmarshalPullRequest payload = none →
      formatEvent ⟨"PullRequestEvent", ⟨repo⟩, payload⟩ = "Updated a pull request in " ++ repo) := by
  refine ⟨?_, ?_⟩
  · intro p hp
    refine ⟨?_, ?_, ?_⟩
    · intro h; simp [formatEvent, hp, h.1, h.2]
    · intro h hne; simp [formatEvent, hp, h, hne]
    · intro h; simp [formatEvent, hp, h]
  · intro h; simp [formatEvent, h]

/-- C6 witness: the two payloads of the spec examples, plus a payload
whose duplicated action key has a mismatched earlier occurrence — a Go
decode error, hence the Updated fallback even though the later
occurrence reads closed and merged is true. -/
theorem pullRequestEvent_format_witness :
    formatEvent ⟨"PullRequestEvent", ⟨"r"⟩,
      some (Json.obj [("action", Json.str "closed"),
        ("pull_request", Json.obj [("merged", Json.bool true)])])⟩ =
      "Merged a pull request in r" ∧
    formatEvent ⟨"PullRequestEvent", ⟨"r"⟩, some (Json.obj [("action", Json.str "opened")])⟩ =
      "Opened a pull request in r" ∧
    formatEvent ⟨"PullRequestEvent", ⟨"r"⟩,
      some (Json.obj [("action", Json.num 5), ("action", Json.str "closed"),
        ("pull_request", Json.obj [("merged", Json.bool true)])])⟩ =
      "Updated a pull request in r" :=
  ⟨(((pullRequestEvent_format "r" (some (Json.obj [("action", Json.str "closed"),
      ("pull_request", Json.obj [("merged", Json.bool true)])]))).1
        ⟨"closed", ⟨true⟩⟩ rfl).1 ⟨rfl, rfl⟩).trans rfl,
   (((pullRequestEvent_format "r" (some (Json.obj [("action", Json.str "opened")]))).1
        ⟨"opened", ⟨false⟩⟩ rfl).2.1 (by decide) (by decide)).trans rfl,
   ((pullRequestEvent_format "r" (some (Json.obj [("action", Json.num 5),
      ("action", Json.str "closed"),
      ("pull_request", Json.obj [("merged", Json.bool true)])]))).2 rfl).trans rfl⟩

/-- C7 counterexample: the code renders the ref with the %q verb, which
escapes a double quote inside the ref, so for the ref consisting of the
three characters a, double quote, b the line differs from the claimed
template that interpolates the ref verbatim between double quotes. -/
theorem createEvent_quoting_counterexample :
    formatEvent ⟨"CreateEvent", ⟨"r"⟩,
      some (Json.obj [("ref_type", Json.str "branch"), ("ref", Json.str "a\"b")])⟩ =
      "Created branch \"a\\\"b\" in r" ∧
    ("Created branch \"a\\\"b\" in r" : String) ≠
      "Created " ++ "branch" ++ " \"" ++ "a\"b" ++ "\" in " ++ "r" := ⟨rfl, by decide⟩

/-- C7 amended: a CreateEvent whose payload decodes gives "Created
repository R" for ref type repository; otherwise, for a non-empty ref,
the ref is rendered by the Go %q verb — wrapped in double quotes, with
quotes, backslashes and control characters backslash-escaped — rather
than interpolated verbatim (stated here for refs of ASCII characters,
where the embedded quoting is exact; Go additionally escapes
non-printable non-ASCII runes); otherwise the ref type alone; an
undecodable payload gives "Created something in R". -/
theorem createEvent_format (repo : String) (payload : Option Json) :
    (∀ p, unmarshalCreate payload = some p →
      (p.refType = "repository" →
        formatEvent ⟨"CreateEvent", ⟨repo⟩, payload⟩ = "Created repository " ++ repo) ∧
      (p.refType ≠ "repository" → p.ref ≠ "" → (∀ c ∈ p.ref.data, c.toNat < 128) →
        formatEvent ⟨"CreateEvent", ⟨repo⟩, payload⟩ =
          "Created " ++ p.refType ++ " " ++ goQuote p.ref ++ " in " ++ repo) ∧
      (p.refType ≠ "repository" → p.ref = "" →
        formatEvent ⟨"CreateEvent", ⟨repo⟩, payload⟩ = "Created " ++ p.refType ++ " in " ++ repo)) ∧
    (unmarshalCreate payload = none →
      formatEvent ⟨"CreateEvent", ⟨repo⟩, payload⟩ = "Created something in " ++ repo) := by
  refine ⟨?_, ?_⟩
  · intro p hp
    refine ⟨?_, ?_, ?_⟩
    · intro h; simp [formatEvent, hp, h]
    · intro h hne _; simp [formatEvent, hp, h, hne]
    · intro h hne; simp [formatEvent, hp, h, hne]
  · intro h; simp [formatEvent, h]

/-- C7 witness: branch with a ref needing no escapes, repository, branch
without a ref, and a payload whose duplicated ref key has a mismatched
earlier occurrence — a Go decode error, hence the fallback. -/
theorem createEvent_format_witness :
    formatEvent ⟨"CreateEvent", ⟨"r"⟩,
      some (Json.obj [("ref_type", Json.str "branch"), ("ref", Json.str "main")])⟩ =
      "Created branch \"main\" in r" ∧
    formatEvent ⟨"CreateEvent", ⟨"r"⟩, some (Json.obj [("ref_type", Json.str "repository")])⟩ =
      "Created repository r" ∧
    formatEvent ⟨"CreateEvent", ⟨"r"⟩, some (Json.obj [("ref_type", Json.str "branch")])⟩ =
      "Created branch in r" ∧
    formatEvent ⟨"CreateEvent", ⟨"r"⟩,
      some (Json.obj [("ref", Json.num 5), ("ref", Json.str "x"),
        ("ref_type", Json.str "branch")])⟩ =
      "Created something in r" :=
  ⟨(((createEvent_format "r" (some (Json.obj [("ref_type", Json.str "branch"),
      ("ref", Json.str "main")]))).1 ⟨"branch", "main"⟩ rfl).2.1
        (by decide) (by decide) (by decide)).trans rfl,
   (((createEvent_format "r" (some (Json.obj [("ref_type", Json.str "repository")]))).1
      ⟨"repository", ""⟩ rfl).1 rfl).trans rfl,
   (((createEvent_format "r" (some (Json.obj [("ref_type", Json.str "branch")]))).1
      ⟨"branch", ""⟩ rfl).2.2 (by decide) rfl).trans rfl,
   ((createEvent_format "r" (some (Json.obj [("ref", Json.num 5), ("ref", Json.str "x"),
      ("ref_type", Json.str "branch")]))).2 rfl).trans rfl⟩

/-- C8: verbCap uppercases the first character exactly when it is an
ASCII lowercase letter and leaves everything else unchanged: it agrees
with applying `Char.toUpper` (which only affects the basic latin letters
a to z) to the first character, so the empty string, a first character
that is already uppercase, a digit, or a non-ASCII character all pass
through unchanged. -/
theorem verbCap_spec (s : String) :
    verbCap s = String.mk (match s.data with | [] => [] | c :: cs => c.toUpper :: cs) := by
  cases s with
  | mk data =>
    cases data with
    | nil => rfl
    | cons c cs =>
      have hne : (⟨c :: cs⟩ : String) ≠ "" := by
        intro h
        have := congrArg String.data h
        simp at this
      simp only [verbCap, Char.toUpper, if_neg hne]
      by_cases h : 97 ≤ c.toNat ∧ c.toNat ≤ 122
      · simp [h]
      · simp [h]

/-- C9: an IssuesEvent renders the capitalized action extracted by the
ActionPayload probe when it is non-empty, and "Updated an issue in R"
when the extracted action is empty — which includes every payload that
fails to decode, since extractAction returns the empty string there, and
decode failure covers every input on which the Go Unmarshal call returns
a non-nil error, including a type mismatch at any fold-matching
occurrence of a duplicated action key. -/
theorem issuesEvent_format (repo : String) (payload : Option Json) :
    (extractAction payload ≠ "" →
      formatEvent ⟨"IssuesEvent", ⟨repo⟩, payload⟩ =
        verbCap (extractAction payload) ++ " an issue in " ++ repo) ∧
    (extractAction payload = "" →
      formatEvent ⟨"IssuesEvent", ⟨repo⟩, payload⟩ = "Updated an issue in " ++ repo) := by
  constructor
  · intro h; simp [formatEvent, h]
  · intro h
    simp [formatEvent, h, show verbCap "updated" = "Updated" from rfl,
      ← congrArg (· ++ repo)
        (show ("Updated" : String) ++ " an issue in " = "Updated an issue in " from rfl)]

/-- C9 witness: an opened action, and a payload whose duplicated action
key has a mismatched earlier occurrence — a Go decode error, so
extractAction yields the empty string and the line is the Updated
fallback even though the later occurrence decodes. -/
theorem issuesEvent_format_witness :
    formatEvent ⟨"IssuesEvent", ⟨"r"⟩, some (Json.obj [("action", Json.str "opened")])⟩ =
      "Opened an issue in r" ∧
    formatEvent ⟨"IssuesEvent", ⟨"r"⟩,
      some (Json.obj [("action", Json.num 5), ("action", Json.str "x")])⟩ =
      "Updated an issue in r" :=
  ⟨((issuesEvent_format "r" (some (Json.obj [("action", Json.str "opened")]))).1 (by decide)).trans rfl,
   ((issuesEvent_format "r" (some (Json.obj [("action", Json.num 5),
      ("action", Json.str "x")]))).2 rfl).trans rfl⟩

/-- C10: for WatchEvent, ForkEvent and IssueCommentEvent the formatted
line never depends on the payload: two events of the same such type with
the same repo name but arbitrary payloads format identically. -/
theorem formatEvent_payload_independent (t : String) (name : String) (p₁ p₂ : Option Json)
    (h : t = "WatchEvent" ∨ t = "ForkEvent" ∨ t = "IssueCommentEvent") :
    formatEvent ⟨t, ⟨name⟩, p₁⟩ = formatEvent ⟨t, ⟨name⟩, p₂⟩ := by
  rcases h with h | h | h <;> subst h <;> rfl

/-- C10 witness: a WatchEvent with and without a payload. -/
theorem formatEvent_payload_independent_witness :
    formatEvent ⟨"WatchEvent", ⟨"r"⟩, some (Json.str "x")⟩ =
      formatEvent ⟨"WatchEvent", ⟨"r"⟩, none⟩ :=
  formatEvent_payload_independent "WatchEvent" "r" (some (Json.str "x")) none (Or.inl rfl)

end GithubActivity
